import Mathlib

/-!
Verification development for the agent-provider orchestration layer of the
ai-hedge-fund repository.  Python is shallowly embedded: dictionaries with
fixed key sets become structures with Option fields (a missing key models a
KeyError on access), floats become rationals, exceptions become an explicit
error type threaded through the Except monad, and the external effects of a
run (the Redis cache, the model-provider backend) become oracle functions
supplied as arguments.  Each definition is translated from one Python
function of the source tree and is named after it.
-/

/-- Embedding of the Python exceptions that the analyzed code can raise. -/
inductive PyError where
  | keyError (key : String)
  | indexError
  | stopIteration
  | zeroDivisionError
  | valueError (msg : String)
  | typeError (msg : String)
  | providerAuth (msg : String)
  | providerQuota (msg : String)
  | providerConn (msg : String)
  | providerResponse (msg : String)
  | modelProviderErr (msg : String)
  | runtimeError (msg : String)
deriving DecidableEq, Repr

/-- Embedding of Python str(e) for the exceptions above; provider errors
store their already-formatted message (see mkProviderMsg). -/
def PyError.str : PyError → String
  | .keyError k => "\x27" ++ k ++ "\x27"
  | .indexError => "list index out of range"
  | .stopIteration => ""
  | .zeroDivisionError => "integer division or modulo by zero"
  | .valueError m => m
  | .typeError m => m
  | .providerAuth m => m
  | .providerQuota m => m
  | .providerConn m => m
  | .providerResponse m => m
  | .modelProviderErr m => m
  | .runtimeError m => m

/-- Decidable equality of Except results, so that claims about concrete
runs can be settled by evaluation. -/
instance instDecidableEqExcept {e a : Type} [DecidableEq e] [DecidableEq a] :
    DecidableEq (Except e a) := fun x y =>
  match x, y with
  | .ok u, .ok v =>
      if h : u = v then isTrue (by rw [h]) else isFalse (fun hc => h (Except.ok.inj hc))
  | .error u, .error v =>
      if h : u = v then isTrue (by rw [h]) else isFalse (fun hc => h (Except.error.inj hc))
  | .ok _, .error _ => isFalse (fun hc => Except.noConfusion hc)
  | .error _, .ok _ => isFalse (fun hc => Except.noConfusion hc)

/-- Turn an optional value into an Except, raising the given error on none;
this embeds a Python dictionary access that may raise. -/
def exceptOfOption {α : Type} (o : Option α) (e : PyError) : Except PyError α :=
  match o with
  | some a => .ok a
  | none => .error e

/-- Characters stripped by Python str.strip() with no argument (ASCII part). -/
def isPyWhitespace (c : Char) : Bool :=
  c = ' ' || c = '\t' || c = '\n' || c = '\r' || c = '\x0b' || c = '\x0c'

/-- Embedding of Python str.strip(). -/
def pyStrip (s : String) : String :=
  String.mk (((s.toList.dropWhile isPyWhitespace).reverse.dropWhile isPyWhitespace).reverse)

/-- Embedding of Python str.lower() (ASCII). -/
def pyLower (s : String) : String :=
  String.mk (s.toList.map Char.toLower)

/-- Embedding of Python str.upper() (ASCII). -/
def pyUpper (s : String) : String :=
  String.mk (s.toList.map Char.toUpper)

/-- Occurrence test of a character list inside another, by structural
recursion so that proofs can evaluate it. -/
def containsAux (sub : List Char) : List Char → Bool
  | [] => sub.isEmpty
  | c :: rest => sub.isPrefixOf (c :: rest) || containsAux sub rest

/-- Embedding of the Python membership test sub in s. -/
def containsSub (s sub : String) : Bool :=
  containsAux sub.toList s.toList

/-- Boolean test that p is a prefix of s, used to state the claims about
result strings. -/
def startsWithStr (s p : String) : Bool :=
  p.toList.isPrefixOf s.toList

/-- Round the fraction num over den (den positive) to the nearest integer,
ties to even: the rounding used by Python format of a float (floats are
idealized as rationals in this embedding); stated on the numerator and
denominator so that proofs can evaluate it. -/
def roundHalfEvenInt (num : Int) (den : Nat) : Int :=
  let fl := num.fdiv den
  let r := num - fl * den
  if 2 * r < (den : Int) then fl
  else if (den : Int) < 2 * r then fl + 1
  else if fl % 2 = 0 then fl else fl + 1

/-- Decimal digits of n left-padded with zeros to the given width. -/
def natDigitsPad (n width : Nat) : String :=
  let s := toString n
  String.mk (List.replicate (width - s.length) '0') ++ s

/-- Embedding of the Python fixed-point float format {x:.prec f}. -/
def fmtFix (prec : Nat) (x : Rat) : String :=
  let scaled := roundHalfEvenInt (x.num * ((10 ^ prec : Nat) : Int)) x.den
  let sign := if scaled < 0 then "-" else ""
  let m := scaled.natAbs
  let p := 10 ^ prec
  sign ++ toString (m / p) ++ "." ++ natDigitsPad (m % p) prec

/-- Embedding of Python str() of a float field value as it appears inside an
f-string (exact for the finite decimal values arising in this code). -/
def pyFloatStr (x : Rat) : String :=
  match (List.range 28).find? (fun k => 10 ^ k % x.den = 0) with
  | some 0 => toString x.num ++ ".0"
  | some (k + 1) =>
    let e := k + 1
    let scale := 10 ^ e / x.den
    let m := x.num.natAbs * scale
    let sign := if x.num < 0 then "-" else ""
    sign ++ toString (m / 10 ^ e) ++ "." ++ natDigitsPad (m % 10 ^ e) e
  | none => toString x.num ++ " div " ++ toString x.den

/-- Embedding of the USD quote dictionary of one cryptocurrency; an Option
field set to none models the key being absent from the dictionary, so that
reading it raises a KeyError. -/
structure Quote where
  price : Option Rat := none
  percent_change_24h : Option Rat := none
  percent_change_7d : Option Rat := none
  percent_change_30d : Option Rat := none
  volume_24h : Option Rat := none
  market_cap : Option Rat := none
  volume_change_24h : Option Rat := none
deriving DecidableEq, Repr

/-- Embedding of one entry of market_data, with quote_USD modelling the
nested access entry of quote of USD (none models either key missing). -/
structure CryptoEntry where
  quote_USD : Option Quote := none
deriving DecidableEq, Repr

/-- Embedding of the market_data dictionary: data is the (ordered) item list
of the inner data dictionary, none modelling a missing data key. -/
structure MarketData where
  data : Option (List (String × CryptoEntry)) := none
deriving DecidableEq, Repr

/-- Embedding of the price_data argument (only the Technical agent reads it;
its concrete shape is irrelevant to the claims settled here). -/
structure PriceData where
  entries : List (String × Rat) := []
deriving DecidableEq, Repr

/-- Read a quote field, raising a KeyError naming the field when absent. -/
def getQ (o : Option Rat) (k : String) : Except PyError Rat :=
  exceptOfOption o (.keyError k)

/-- Discourse markers filtered by MarketDataAgent.analyze when
show_reasoning is false (specialized.py line 111). -/
def reasoningMarkers : List String :=
  ["Because", "This is based on", "Given that", "Considering"]

/-- Splitting of a character list at newline characters (Python
str.split semantics: the empty string gives one empty piece, a trailing
separator a trailing empty piece). -/
def splitNlAux : List Char → List Char → List String
  | [], acc => [String.mk acc.reverse]
  | c :: rest, acc =>
      if c = '\n' then String.mk acc.reverse :: splitNlAux rest []
      else splitNlAux rest (c :: acc)

/-- Embedding of the Python call response.split of a newline separator. -/
def pySplitNl (s : String) : List String :=
  splitNlAux s.toList []

/-- Embedding of the Python join of a newline separator over a line list. -/
def joinNl : List String → String
  | [] => ""
  | [x] => x
  | x :: xs => x ++ "\n" ++ joinNl xs

/-- Embedding of the line filter of MarketDataAgent.analyze lines 107-113:
split on newlines, drop every line whose stripped form starts with one of
the four discourse markers, join the rest with newlines. -/
def stripReasoning (response : String) : String :=
  joinNl
    ((pySplitNl response).filter
      (fun line => !(reasoningMarkers.any (fun m => startsWithStr (pyStrip line) m))))

/-- Reasoning request fragment of MarketDataAgent.analyze lines 85-90. -/
def mdReasoningRequest : String :=
  "\n                For each point, please explain your reasoning by:\n                - Citing specific data points that support your conclusion\n                - Explaining the significance of these indicators\n                - Describing how you arrived at your assessment\n                "

/-- Continuation of MarketDataAgent.analyze after a cache miss
(specialized.py lines 63-120): build market_stats, call the provider or
fall back to the raw statistics, filter reasoning lines, store in the
cache, return.  The validation returns of lines 64-70 are unreachable
because lines 54-55 already accessed the same keys, so they are omitted.
The json.dumps/json.loads round-trip of the cached string is the
identity and is modelled as such. -/
def mdAfterCacheMiss (redisSet : String → String → Except PyError Unit)
    (provider : Option (String → Except PyError String))
    (quote : Quote) (cache_key : String) (price pc24 : Rat)
    (show_reasoning : Bool) : Except PyError String := do
  let v24 ← getQ quote.volume_24h "volume_24h"
  let mcap ← getQ quote.market_cap "market_cap"
  let market_stats :=
    "=== MARKET STATISTICS ===\n" ++
    "Current Price:    $" ++ fmtFix 2 price ++ "\n" ++
    "24h Change:       " ++ fmtFix 2 pc24 ++ "%\n" ++
    "Volume:          $" ++ fmtFix 1 (v24 / 1000000) ++ "M\n" ++
    "Market Cap:      $" ++ fmtFix 2 (mcap / 1000000000) ++ "B"
  let analysis ← match provider with
    | some callProvider => do
        let reasoning_request := if show_reasoning then mdReasoningRequest else ""
        let prompt :=
          "Analyze the following cryptocurrency market data and provide insights:\n                "
          ++ market_stats ++
          "\n                \n                Please provide:\n                1. Market strength assessment\n                2. Notable patterns or concerns\n                3. Key factors to watch\n                "
          ++ reasoning_request ++ "\n                "
        let response ← callProvider prompt
        if show_reasoning = false then
          pure (stripReasoning response)
        else
          pure response
    | none => pure market_stats
  let _ ← redisSet cache_key analysis
  pure analysis

/-- Body of the try block of MarketDataAgent.analyze (specialized.py lines
53-120).  A returned error is what the except clause of line 121 catches. -/
def mdTryBody (redisGet : String → Except PyError (Option String))
    (redisSet : String → String → Except PyError Unit)
    (provider : Option (String → Except PyError String))
    (nowBucket : String) (market_data : MarketData)
    (show_reasoning : Bool) : Except PyError String := do
  let data ← exceptOfOption market_data.data (.keyError "data")
  let firstEntry ← exceptOfOption data.head? .stopIteration
  let symbol := firstEntry.1
  let quote ← exceptOfOption firstEntry.2.quote_USD (.keyError "quote")
  let price ← getQ quote.price "price"
  let pc24 ← getQ quote.percent_change_24h "percent_change_24h"
  let cache_key := symbol ++ ":" ++ pyFloatStr price ++ ":" ++ pyFloatStr pc24 ++ ":" ++ nowBucket
  let cached ← redisGet cache_key
  match cached with
  | some c =>
      if c = "" then
        mdAfterCacheMiss redisSet provider quote cache_key price pc24 show_reasoning
      else
        pure c
  | none => mdAfterCacheMiss redisSet provider quote cache_key price pc24 show_reasoning

/-- Embedding of MarketDataAgent.analyze (specialized.py lines 48-122).
initRedis models the awaited _init_redis call of line 50, which the source
places before the try block, so an error there is returned as an
uncaught exception (the .error case of the result); every error inside
the try body is converted by the except clause of lines 121-122 into the
returned error string.  redisGet and redisSet are oracles for the Redis
round-trips, provider is the held adapter (none models a falsy
self.provider), nowBucket models the hour-granularity timestamp of the
cache key, and price_data is accepted but never read. -/
def MarketDataAgent.analyze (initRedis : Except PyError Unit)
    (redisGet : String → Except PyError (Option String))
    (redisSet : String → String → Except PyError Unit)
    (provider : Option (String → Except PyError String))
    (nowBucket : String) (price_data : PriceData) (market_data : MarketData)
    (show_reasoning : Bool) : Except PyError String :=
  match initRedis with
  | .error e => .error e
  | .ok _ =>
    match mdTryBody redisGet redisSet provider nowBucket market_data show_reasoning with
    | .ok s => .ok s
    | .error e => .ok ("Error analyzing market data: " ++ e.str)

/-- Body of the try block of SentimentAgent.analyze (specialized.py lines
135-167). -/
def sentimentTryBody (provider : Option (String → Except PyError String))
    (market_data : MarketData) : Except PyError String := do
  let data ← exceptOfOption market_data.data (.keyError "data")
  let firstEntry ← exceptOfOption data.head? .indexError
  let quote ← exceptOfOption firstEntry.2.quote_USD (.keyError "quote")
  let pc24 ← getQ quote.percent_change_24h "percent_change_24h"
  let pc7 ← getQ quote.percent_change_7d "percent_change_7d"
  let pc30 ← getQ quote.percent_change_30d "percent_change_30d"
  let vc ← getQ quote.volume_change_24h "volume_change_24h"
  let market_stats :=
    "=== MARKET TRENDS ===\n" ++
    "24h Change: " ++ fmtFix 2 pc24 ++ "%\n" ++
    "7d Change: " ++ fmtFix 2 pc7 ++ "%\n" ++
    "30d Change: " ++ fmtFix 2 pc30 ++ "%\n" ++
    "Volume Change 24h: " ++ fmtFix 2 vc ++ "%"
  match provider with
  | some callProvider => do
      let prompt :=
        "Analyze the market sentiment based on the following cryptocurrency data:\n                "
        ++ market_stats ++
        "\n                \n                Please provide:\n                1. Overall market sentiment (bullish/bearish/neutral)\n                2. Key sentiment indicators\n                3. Sentiment outlook for next 24-48 hours\n                "
      let response ← callProvider prompt
      pure response
  | none =>
      let sentiment := if pc24 > 0 then "bullish" else "bearish"
      pure ("Market Sentiment: " ++ pyUpper sentiment ++ "\n" ++
            "24h Trend: " ++ fmtFix 2 pc24 ++ "%\n" ++
            "7d Trend: " ++ fmtFix 2 pc7 ++ "%")

/-- Embedding of SentimentAgent.analyze (specialized.py lines 134-169): the
try body with every exception converted to the error string of line 169.
price_data and show_reasoning are accepted but never read. -/
def SentimentAgent.analyze (provider : Option (String → Except PyError String))
    (price_data : PriceData) (market_data : MarketData)
    (show_reasoning : Bool) : String :=
  match sentimentTryBody provider market_data with
  | .ok s => s
  | .error e => "Error analyzing sentiment: " ++ e.str

/-- Body of the try block of RiskManagementAgent.analyze (specialized.py
lines 293-327). -/
def riskTryBody (provider : Option (String → Except PyError String))
    (market_data : MarketData) : Except PyError String := do
  let data ← exceptOfOption market_data.data (.keyError "data")
  let firstEntry ← exceptOfOption data.head? .indexError
  let quote ← exceptOfOption firstEntry.2.quote_USD (.keyError "quote")
  let pc24 ← getQ quote.percent_change_24h "percent_change_24h"
  let volatility := |pc24|
  let vc ← getQ quote.volume_change_24h "volume_change_24h"
  let mcap ← getQ quote.market_cap "market_cap"
  let v24 ← getQ quote.volume_24h "volume_24h"
  let risk_data :=
    "=== RISK METRICS ===\n" ++
    "24h Volatility: " ++ fmtFix 2 volatility ++ "%\n" ++
    "Volume Change: " ++ fmtFix 2 vc ++ "%\n" ++
    "Market Cap: $" ++ fmtFix 2 (mcap / 1000000000) ++ "B\n" ++
    "24h Volume: $" ++ fmtFix 2 (v24 / 1000000) ++ "M"
  match provider with
  | some callProvider => do
      let prompt :=
        "Analyze the following risk metrics for this cryptocurrency:\n                "
        ++ risk_data ++
        "\n                \n                Please provide:\n                1. Overall risk assessment\n                2. Key risk factors\n                3. Risk mitigation recommendations\n                4. Position sizing suggestions\n                "
      let response ← callProvider prompt
      pure response
  | none =>
      let risk_level := if volatility > 10 then "HIGH" else if volatility > 5 then "MEDIUM" else "LOW"
      pure ("Risk Level: " ++ risk_level ++ "\n" ++
            "Volatility: " ++ fmtFix 2 volatility ++ "%\n" ++
            "Volume Change: " ++ fmtFix 2 vc ++ "%")

/-- Embedding of RiskManagementAgent.analyze (specialized.py lines
292-329): the try body with every exception converted to the error string
of line 329.  price_data and show_reasoning are accepted but never read. -/
def RiskManagementAgent.analyze (provider : Option (String → Except PyError String))
    (price_data : PriceData) (market_data : MarketData)
    (show_reasoning : Bool) : String :=
  match riskTryBody provider market_data with
  | .ok s => s
  | .error e => "Error analyzing risks: " ++ e.str

/-- Body of the try block of PortfolioAgent.analyze (specialized.py lines
342-377). -/
def portfolioTryBody (provider : Option (String → Except PyError String))
    (market_data : MarketData) : Except PyError String := do
  let data ← exceptOfOption market_data.data (.keyError "data")
  let firstEntry ← exceptOfOption data.head? .indexError
  let quote ← exceptOfOption firstEntry.2.quote_USD (.keyError "quote")
  let price ← getQ quote.price "price"
  let pc24 ← getQ quote.percent_change_24h "percent_change_24h"
  let pc7 ← getQ quote.percent_change_7d "percent_change_7d"
  let mcap ← getQ quote.market_cap "market_cap"
  let v24 ← getQ quote.volume_24h "volume_24h"
  let portfolio_data :=
    "=== PORTFOLIO METRICS ===\n" ++
    "Current Price: $" ++ fmtFix 2 price ++ "\n" ++
    "24h Change: " ++ fmtFix 2 pc24 ++ "%\n" ++
    "7d Change: " ++ fmtFix 2 pc7 ++ "%\n" ++
    "Market Cap: $" ++ fmtFix 2 (mcap / 1000000000) ++ "B\n" ++
    "Volume: $" ++ fmtFix 2 (v24 / 1000000) ++ "M"
  match provider with
  | some callProvider => do
      let prompt :=
        "Analyze these portfolio metrics and provide investment recommendations:\n                "
        ++ portfolio_data ++
        "\n                \n                Please provide:\n                1. Recommended portfolio action (buy/sell/hold)\n                2. Position sizing recommendation\n                3. Risk management considerations\n                4. Short-term and long-term outlook\n                "
      let response ← callProvider prompt
      pure response
  | none =>
      let trend := pc24
      let action := if trend > 5 then "TAKE PROFIT" else if trend < -5 then "BUY DIP" else "HOLD"
      pure ("Recommended Action: " ++ action ++ "\n" ++
            "Price Trend: " ++ fmtFix 2 trend ++ "%\n" ++
            "Market Direction: " ++ (if trend > 0 then "Upward" else "Downward"))

/-- Embedding of PortfolioAgent.analyze (specialized.py lines 341-379): the
try body with every exception converted to the error string of line 379.
price_data and show_reasoning are accepted but never read. -/
def PortfolioAgent.analyze (provider : Option (String → Except PyError String))
    (price_data : PriceData) (market_data : MarketData)
    (show_reasoning : Bool) : String :=
  match portfolioTryBody provider market_data with
  | .ok s => s
  | .error e => "Error generating portfolio advice: " ++ e.str

/-- Provider error message as formatted by ModelProviderError.__init__
(providers/base.py line 12). -/
def mkProviderMsg (provider message : String) : String :=
  "[" ++ provider ++ "] " ++ message

/-- Embedding of the except clause of AnthropicProvider.create_message
(anthropic_provider.py lines 74-82): classify the text of the backend
exception by substring inspection of its lowercased form. -/
def classifyAnthropic (e : String) : PyError :=
  let le := pyLower e
  if containsSub le "authentication" then .providerAuth (mkProviderMsg "Anthropic" e)
  else if containsSub le "rate limit" then .providerQuota (mkProviderMsg "Anthropic" e)
  else if containsSub le "connection" then .providerConn (mkProviderMsg "Anthropic" e)
  else .modelProviderErr (mkProviderMsg "Anthropic" e)

/-- Embedding of AnthropicProvider.create_message (anthropic_provider.py
lines 53-82) over a backend oracle giving the outcome of the single
client.ainvoke call: ok carries response.content, error carries str(e) of
the backend exception, which the except clause classifies and re-raises. -/
def AnthropicProvider.create_message (backend : Except String String) :
    Except PyError String :=
  match backend with
  | .ok content => .ok content
  | .error e => .error (classifyAnthropic e)

/-- Provider call path executed on behalf of an agent: analyze invokes
self.provider.create_message exactly once (for example specialized.py line
157), so of the stream of outcomes the backend would produce for
successive calls only the outcome of call 0 is ever consumed. -/
def agentSingleCall (attempts : Nat → Except String String) :
    Except PyError String :=
  AnthropicProvider.create_message (attempts 0)

/-- Embedding of BaseProvider._handle_provider_error (providers/base.py
lines 75-94): on a ProviderConnectionError with retry_count below 3, sleep
and return the result of a fresh generate_response call (retryCall); on a
ProviderQuotaError return the result of the fallback provider call
(fallbackCall, built through the spec-modelled registry lookup of the
absent src/config module); otherwise re-raise.  No call site of this
method exists anywhere in the source tree. -/
def BaseProvider.handle_provider_error (error : PyError) (retry_count : Nat)
    (retryCall fallbackCall : Except PyError String) : Except PyError String :=
  match error with
  | .providerConn m =>
      if retry_count < 3 then retryCall else .error (.providerConn m)
  | .providerQuota _ => fallbackCall
  | e => .error e

/-- Environment of one analyze_market call.  get_provider_config is the
default_model lookup of ModelConfig.  Modelled from the spec: the module
src/config/model_config.py is not in the source tree; per spec section 4.2
the registry resolves a provider identifier to its configuration and a
missing provider is a configuration error, modelled by a none result.
getenv embeds os.getenv. -/
structure OrchestrationEnv where
  get_provider_config : String → Option String
  getenv : String → Option String

/-- Dictionary insertion on an association list keyed by first component:
overwrite in place when the key exists, append otherwise (Python dict
assignment semantics, preserving first-insertion key order). -/
def assocSet : List (String × String) → String → String → List (String × String)
  | [], k, v => [(k, v)]
  | p :: rest, k, v => if p.1 = k then (k, v) :: rest else p :: assocSet rest k v

/-- Key-list counterpart of assocSet: the effect of a dict insertion on the
ordered key list. -/
def insertKey : List String → String → List String
  | [], k => [k]
  | x :: rest, k => if x = k then x :: rest else x :: insertKey rest k

/-- Ordered key set of a Python dict built by inserting the given keys in
order: first occurrences survive, duplicates collapse. -/
def dictKeys (ps : List String) : List String :=
  ps.foldl insertKey []

/-- Python dict lookup on an association list. -/
def lookupD (l : List (String × String)) (k : String) : Option String :=
  (l.find? (fun p => p.1 = k)).map (fun p => p.2)

/-- One iteration of the provider loop of analyze_market (agents/__init__.py
lines 54-69): record the default model for the provider and fetch the
matching API key from the environment, raising ValueError when the key is
absent or empty (Python falsiness of the getenv result). -/
def resolveStep (env : OrchestrationEnv)
    (acc : List (String × String) × List (String × String)) (p : String) :
    Except PyError (List (String × String) × List (String × String)) := do
  let cfg ← exceptOfOption (env.get_provider_config p)
    (.valueError ("Unknown provider: " ++ p))
  let cfgs := assocSet acc.1 p cfg
  if p = "anthropic" then
    match env.getenv "ANTHROPIC_API_KEY" with
    | none => .error (.valueError "ANTHROPIC_API_KEY not found in environment variables")
    | some k =>
        if k = "" then
          .error (.valueError "ANTHROPIC_API_KEY not found in environment variables")
        else
          .ok (cfgs, assocSet acc.2 p k)
  else if p = "openai" then
    match env.getenv "OPENAI_API_KEY" with
    | none => .error (.valueError "OPENAI_API_KEY not found in environment variables")
    | some k =>
        if k = "" then
          .error (.valueError "OPENAI_API_KEY not found in environment variables")
        else
          .ok (cfgs, assocSet acc.2 p k)
  else
    .ok (cfgs, acc.2)

/-- Recursion of the provider loop of analyze_market over the requested
provider list, accumulating provider_configs and api_keys. -/
def resolveProvidersAux (env : OrchestrationEnv) :
    List String → (List (String × String) × List (String × String)) →
    Except PyError (List (String × String) × List (String × String))
  | [], acc => .ok acc
  | p :: rest, acc => do
      let accNext ← resolveStep env acc p
      resolveProvidersAux env rest accNext

/-- Provider resolution phase of analyze_market (agents/__init__.py lines
46-69), producing the provider_configs and api_keys dictionaries.  A
provider_map of None and of an empty list coincide (the loop body never
runs); a single string provider_map is the one-element list. -/
def resolveProviders (env : OrchestrationEnv) (providers : List String) :
    Except PyError (List (String × String) × List (String × String)) :=
  resolveProvidersAux env providers ([], [])

/-- Constructed agent of analyze_market lines 91-95 and 100-104: the
keyword arguments passed to the agent class. -/
structure AgentInstance where
  model_name : String
  api_key : String
  provider_name : String
deriving DecidableEq, Repr

/-- Agent mapping dictionary of analyze_market lines 72-78, in insertion
order: agent_type key paired with the result-map agent name. -/
def agent_mapping : List (String × String) :=
  [("market", "market_data_agent"),
   ("sentiment", "sentiment_agent"),
   ("technical", "technical_agent"),
   ("risk", "risk_management_agent"),
   ("portfolio", "portfolio_agent")]

/-- Construction of the agent at loop position i of analyze_market lines
98-104: provider_list is the key list of provider_configs, the provider is
provider_list at i mod its length (ZeroDivisionError on an empty list, as
Python i % 0 raises), and the model name and API key are the dictionary
lookups of lines 101-102 (KeyError when the key lookup fails, which
happens for a provider that is neither anthropic nor openai). -/
def mkAgent (cfgs keys : List (String × String)) (i : Nat) :
    Except PyError AgentInstance :=
  let provider_list := cfgs.map Prod.fst
  if provider_list.length = 0 then .error .zeroDivisionError
  else
    match provider_list.get? (i % provider_list.length) with
    | none => .error .indexError
    | some provider => do
        let mn ← exceptOfOption (lookupD cfgs provider) (.keyError provider)
        let ak ← exceptOfOption (lookupD keys provider) (.keyError provider)
        .ok { model_name := mn, api_key := ak, provider_name := provider }

/-- Construction of the single requested agent of analyze_market lines
84-95: validate agent_type, take the first provider of provider_list
(IndexError on an empty list), and build the agent. -/
def mkSingleAgent (cfgs keys : List (String × String)) (aty : String) :
    Except PyError (List (String × AgentInstance)) :=
  match agent_mapping.find? (fun p => p.1 = aty) with
  | none => .error (.valueError ("Invalid agent_type: " ++ aty))
  | some entry =>
      match (cfgs.map Prod.fst).head? with
      | none => .error .indexError
      | some provider => do
          let mn ← exceptOfOption (lookupD cfgs provider) (.keyError provider)
          let ak ← exceptOfOption (lookupD keys provider) (.keyError provider)
          .ok [(entry.2, { model_name := mn, api_key := ak, provider_name := provider })]

/-- Agent-set construction of analyze_market lines 80-104: one agent when
agent_type is given, otherwise all five of agent_mapping in order with
round-robin provider assignment (the loop over the five-entry dictionary
unrolled). -/
def buildAgents (cfgs keys : List (String × String)) (agent_type : Option String) :
    Except PyError (List (String × AgentInstance)) :=
  match agent_type with
  | some aty => mkSingleAgent cfgs keys aty
  | none => do
      let a0 ← mkAgent cfgs keys 0
      let a1 ← mkAgent cfgs keys 1
      let a2 ← mkAgent cfgs keys 2
      let a3 ← mkAgent cfgs keys 3
      let a4 ← mkAgent cfgs keys 4
      .ok [("market_data_agent", a0),
           ("sentiment_agent", a1),
           ("technical_agent", a2),
           ("risk_management_agent", a3),
           ("portfolio_agent", a4)]

/-- Embedding of analyze_market (agents/__init__.py lines 22-115): resolve
providers, build the agent set, then run every agent and collect the
outcomes.  oracle gives the outcome of each created task under
asyncio.gather with return_exceptions True, so an agent exception is
captured as an error value in its own slot and the aggregation itself
returns ok whenever resolution and construction succeeded. -/
def analyze_market (env : OrchestrationEnv) (providers : List String)
    (agent_type : Option String)
    (oracle : String → AgentInstance → Except PyError String) :
    Except PyError (List (String × Except PyError String)) := do
  let resolved ← resolveProviders env providers
  let agents ← buildAgents resolved.1 resolved.2 agent_type
  .ok (agents.map (fun p => (p.1, oracle p.1 p.2)))

/-- Timed refinement of analyze_market: each task outcome is paired with
the time the task takes to complete.  The source awaits asyncio.gather
with no deadline, timeout or cancellation (agents/__init__.py line 114),
so every task is awaited to completion and its duration is ignored. -/
def analyze_market_timed (env : OrchestrationEnv) (providers : List String)
    (agent_type : Option String)
    (oracle : String → AgentInstance → Nat × Except PyError String) :
    Except PyError (List (String × Except PyError String)) :=
  analyze_market env providers agent_type (fun n a => (oracle n a).2)

/-- Resolved agent set as the spec words it: the one selected agent, or the
five canonical agents in order (used to compare the result key set of
analyze_market with the spec). -/
def specResolvedAgentSet (agent_type : Option String) : List String :=
  match agent_type with
  | none => ["market_data_agent", "sentiment_agent", "technical_agent",
             "risk_management_agent", "portfolio_agent"]
  | some aty => ((agent_mapping.find? (fun p => p.1 = aty)).map (fun p => [p.2])).getD []

/-- Helper: a leading segment of a list keeps leading it after appending. -/
theorem aux_isPrefixOf_append (l1 : List Char) :
    ∀ (l2 l3 : List Char), l1.isPrefixOf l2 = true → l1.isPrefixOf (l2 ++ l3) = true := by
  induction l1 with
  | nil =>
    intro l2 l3 _
    cases l2 ++ l3 <;> rfl
  | cons a as ih =>
    intro l2 l3 h
    cases l2 with
    | nil => simp [List.isPrefixOf] at h
    | cons b bs =>
      simp only [List.isPrefixOf, List.cons_append, Bool.and_eq_true] at h ⊢
      exact ⟨h.1, ih bs l3 h.2⟩

/-- Helper: a string that starts with p still does after appending text. -/
theorem aux_startsWithStr_append_right (s p t : String) (h : startsWithStr s p = true) :
    startsWithStr (s ++ t) p = true := by
  unfold startsWithStr at h ⊢
  have hts : (s ++ t).toList = s.toList ++ t.toList := by simp [String.toList]
  rw [hts]
  exact aux_isPrefixOf_append p.toList s.toList t.toList h

/-- Helper: the agent names produced by buildAgents are exactly the resolved
agent set of the request. -/
theorem aux_buildAgents_names (cfgs keys : List (String × String))
    (aty : Option String) (agents : List (String × AgentInstance))
    (h : buildAgents cfgs keys aty = .ok agents) :
    agents.map Prod.fst = specResolvedAgentSet aty := by
  cases aty with
  | none =>
    simp only [buildAgents, bind, Except.bind] at h
    repeat' split at h
    all_goals (try simp_all [specResolvedAgentSet])
    all_goals (rw [← h]; rfl)
  | some t =>
    simp only [buildAgents, mkSingleAgent, bind, Except.bind] at h
    repeat' split at h
    all_goals (try simp_all [specResolvedAgentSet])
    all_goals (rw [← h]; rfl)

/-- C1: once provider resolution and agent construction succeed,
analyze_market returns ok for every oracle of per-agent outcomes (failures
included), and the key list of the returned mapping is exactly the
resolved agent set. -/
theorem analyze_market_keys_complete (env : OrchestrationEnv)
    (providers : List String) (aty : Option String)
    (oracle : String → AgentInstance → Except PyError String)
    (resolved : List (String × String) × List (String × String))
    (agents : List (String × AgentInstance))
    (hres : resolveProviders env providers = .ok resolved)
    (hagents : buildAgents resolved.1 resolved.2 aty = .ok agents) :
    analyze_market env providers aty oracle
      = .ok (agents.map (fun p => (p.1, oracle p.1 p.2))) ∧
    (agents.map (fun p => (p.1, oracle p.1 p.2))).map Prod.fst
      = specResolvedAgentSet aty := by
  constructor
  · simp [analyze_market, hres, hagents, bind, Except.bind]
  · rw [List.map_map]
    have hnames := aux_buildAgents_names resolved.1 resolved.2 aty agents hagents
    simpa using hnames

/-- Demonstration environment with both providers configured. -/
def demoEnv : OrchestrationEnv :=
  { get_provider_config := fun p =>
      if p = "anthropic" then some "claude-3" else
      if p = "openai" then some "gpt-4" else none,
    getenv := fun k =>
      if k = "ANTHROPIC_API_KEY" then some "key-a" else
      if k = "OPENAI_API_KEY" then some "key-o" else none }

/-- Oracle in which every agent analysis fails. -/
def demoFailOracle : String → AgentInstance → Except PyError String :=
  fun n _ => .error (.runtimeError n)

/-- Agents built for a one-provider request in demoEnv. -/
def demoAgentsAnthropic : List (String × AgentInstance) :=
  [("market_data_agent", ⟨"claude-3", "key-a", "anthropic"⟩),
   ("sentiment_agent", ⟨"claude-3", "key-a", "anthropic"⟩),
   ("technical_agent", ⟨"claude-3", "key-a", "anthropic"⟩),
   ("risk_management_agent", ⟨"claude-3", "key-a", "anthropic"⟩),
   ("portfolio_agent", ⟨"claude-3", "key-a", "anthropic"⟩)]

/-- Witness for C1 at a concrete request in which all five analyses fail. -/
theorem analyze_market_keys_complete_witness :
    analyze_market demoEnv ["anthropic"] none demoFailOracle
      = .ok (demoAgentsAnthropic.map (fun p => (p.1, demoFailOracle p.1 p.2))) ∧
    (demoAgentsAnthropic.map (fun p => (p.1, demoFailOracle p.1 p.2))).map Prod.fst
      = specResolvedAgentSet none :=
  analyze_market_keys_complete demoEnv ["anthropic"] none demoFailOracle
    ([("anthropic", "claude-3")], [("anthropic", "key-a")])
    demoAgentsAnthropic rfl rfl

/-- Helper for C2: slots of agents other than a are built from oracle values
on which the two oracles agree. -/
theorem aux_filter_map_oracle (a : String)
    (o1 o2 : String → AgentInstance → Except PyError String)
    (hagree : ∀ n inst, n ≠ a → o1 n inst = o2 n inst)
    (agents : List (String × AgentInstance)) :
    (agents.map (fun p => (p.1, o1 p.1 p.2))).filter (fun p => p.1 != a)
      = (agents.map (fun p => (p.1, o2 p.1 p.2))).filter (fun p => p.1 != a) := by
  induction agents with
  | nil => rfl
  | cons hd tl ih =>
    simp only [List.map_cons, List.filter_cons]
    by_cases h : hd.1 = a
    · simp [h, ih]
    · have heq : o1 hd.1 hd.2 = o2 hd.1 hd.2 := hagree hd.1 hd.2 h
      simp [h, heq, ih]

/-- C2: two analyze_market runs whose per-agent outcome oracles differ only
at one agent produce identical slots for every other agent. -/
theorem analyze_market_fault_isolation (env : OrchestrationEnv)
    (providers : List String) (aty : Option String) (a : String)
    (o1 o2 : String → AgentInstance → Except PyError String)
    (hagree : ∀ n inst, n ≠ a → o1 n inst = o2 n inst)
    (r1 r2 : List (String × Except PyError String))
    (h1 : analyze_market env providers aty o1 = .ok r1)
    (h2 : analyze_market env providers aty o2 = .ok r2) :
    r1.filter (fun p => p.1 != a) = r2.filter (fun p => p.1 != a) := by
  simp only [analyze_market, bind, Except.bind] at h1 h2
  cases hres : resolveProviders env providers with
  | error e => rw [hres] at h1; exact absurd h1 (by simp)
  | ok resolved =>
    rw [hres] at h1 h2
    dsimp only at h1 h2
    cases hb : buildAgents resolved.1 resolved.2 aty with
    | error e => rw [hb] at h1; exact absurd h1 (by simp)
    | ok agents =>
      rw [hb] at h1 h2
      dsimp only at h1 h2
      simp only [Except.ok.injEq] at h1 h2
      subst h1
      subst h2
      exact aux_filter_map_oracle a o1 o2 hagree agents

/-- Oracle for the C2 witness: the technical slot fails with a quota error
after exhausted fallback, all other slots succeed. -/
def demoQuotaOracle : String → AgentInstance → Except PyError String :=
  fun n _ =>
    if n = "technical_agent" then .error (.providerQuota "[Anthropic] rate limit exceeded")
    else .ok ("verdict " ++ n)

/-- Oracle for the C2 witness identical to demoQuotaOracle except that the
technical slot succeeds. -/
def demoOkOracle : String → AgentInstance → Except PyError String :=
  fun n _ =>
    if n = "technical_agent" then .ok "technical verdict"
    else .ok ("verdict " ++ n)

/-- Witness for C2: the non-technical slots of the two concrete runs match. -/
theorem analyze_market_fault_isolation_witness :
    (demoAgentsAnthropic.map (fun p => (p.1, demoQuotaOracle p.1 p.2))).filter
        (fun p => p.1 != "technical_agent")
      = (demoAgentsAnthropic.map (fun p => (p.1, demoOkOracle p.1 p.2))).filter
        (fun p => p.1 != "technical_agent") :=
  analyze_market_fault_isolation demoEnv ["anthropic"] none "technical_agent"
    demoQuotaOracle demoOkOracle
    (fun n inst h => by simp [demoQuotaOracle, demoOkOracle, h])
    _ _ rfl rfl

/-- C9 counterexample: with no deadline anywhere in analyze_market, the slot
of an agent that takes arbitrarily long still carries its own
outcome, never a timeout error; a deadline of, say, 1000 shorter than the
technical task duration of 1000000 changes nothing. -/
theorem no_deadline_counterexample :
    analyze_market_timed demoEnv ["anthropic"] none
      (fun n _ => if n = "technical_agent" then (1000000, .ok "technical verdict")
                  else (1, .ok ("verdict " ++ n)))
      = .ok [("market_data_agent", .ok "verdict market_data_agent"),
             ("sentiment_agent", .ok "verdict sentiment_agent"),
             ("technical_agent", .ok "technical verdict"),
             ("risk_management_agent", .ok "verdict risk_management_agent"),
             ("portfolio_agent", .ok "verdict portfolio_agent")] ∧
    ((fun (n : String) (_ : AgentInstance) =>
        if n = "technical_agent" then ((1000000 : Nat), (.ok "technical verdict" : Except PyError String))
        else (1, .ok ("verdict " ++ n)))
      "technical_agent" ⟨"claude-3", "key-a", "anthropic"⟩).1 > 1000 := by
  exact ⟨rfl, by decide⟩

/-- C9 amended: analyze_market awaits every agent task to completion and its
result is independent of task durations; no slot is ever replaced by a
timeout error. -/
theorem analyze_market_duration_independent (env : OrchestrationEnv)
    (providers : List String) (aty : Option String)
    (o1 o2 : String → AgentInstance → Nat × Except PyError String)
    (houtcome : ∀ n inst, (o1 n inst).2 = (o2 n inst).2) :
    analyze_market_timed env providers aty o1
      = analyze_market_timed env providers aty o2 := by
  unfold analyze_market_timed
  congr 1
  funext n inst
  exact houtcome n inst

/-- Witness for C9 amended: a run in which every task takes 5 units and one
in which every task takes 999999 units coincide. -/
theorem analyze_market_duration_independent_witness :
    analyze_market_timed demoEnv ["anthropic"] none (fun n _ => (5, .ok ("v " ++ n)))
      = analyze_market_timed demoEnv ["anthropic"] none (fun n _ => (999999, .ok ("v " ++ n))) :=
  analyze_market_duration_independent demoEnv ["anthropic"] none _ _ (fun _ _ => rfl)

/-- C10: the Sentiment, Risk and Portfolio agents never read price_data:
for any two price_data values and otherwise identical inputs the three
analyze results coincide. -/
theorem price_data_never_read (provider : Option (String → Except PyError String))
    (pd1 pd2 : PriceData) (md : MarketData) (sr : Bool) :
    SentimentAgent.analyze provider pd1 md sr = SentimentAgent.analyze provider pd2 md sr ∧
    RiskManagementAgent.analyze provider pd1 md sr = RiskManagementAgent.analyze provider pd2 md sr ∧
    PortfolioAgent.analyze provider pd1 md sr = PortfolioAgent.analyze provider pd2 md sr :=
  ⟨rfl, rfl, rfl⟩

/-- Market-data value holding one symbol with the given quote (the shape
every agent reads: first entry of data, then quote, then USD). -/
def mdOfQuote (sym : String) (q : Quote) : MarketData :=
  ⟨some [(sym, ⟨some q⟩)]⟩

/-- Quote with every field the embedded agents read present. -/
def fullQuote (pr pc p7 p30 v mc vc : Rat) : Quote :=
  { price := some pr
    percent_change_24h := some pc
    percent_change_7d := some p7
    percent_change_30d := some p30
    volume_24h := some v
    market_cap := some mc
    volume_change_24h := some vc }

/-- Quote of the exact snapshot named by the local-fallback scenario:
price 100.00, percent_change_24h 12.0, volume_24h 5000000, market_cap
2000000000, and no other fields. -/
def scenarioQuote : Quote :=
  { price := some 100
    percent_change_24h := some 12
    volume_24h := some 5000000
    market_cap := some 2000000000 }

/-- C6 counterexample: on the exact scenario snapshot (which carries no
percent_change_7d, percent_change_30d or volume_change_24h entries) every
one of the three local fallbacks dies on a KeyError while formatting its
metrics block, so none of the three promised result prefixes appears. -/
theorem local_fallback_scenario_counterexample :
    RiskManagementAgent.analyze none ⟨[]⟩ (mdOfQuote "BTC" scenarioQuote) false
      = "Error analyzing risks: \x27volume_change_24h\x27" ∧
    startsWithStr (RiskManagementAgent.analyze none ⟨[]⟩ (mdOfQuote "BTC" scenarioQuote) false)
      "Risk Level: HIGH" = false ∧
    PortfolioAgent.analyze none ⟨[]⟩ (mdOfQuote "BTC" scenarioQuote) false
      = "Error generating portfolio advice: \x27percent_change_7d\x27" ∧
    startsWithStr (PortfolioAgent.analyze none ⟨[]⟩ (mdOfQuote "BTC" scenarioQuote) false)
      "Recommended Action: TAKE PROFIT" = false ∧
    SentimentAgent.analyze none ⟨[]⟩ (mdOfQuote "BTC" scenarioQuote) false
      = "Error analyzing sentiment: \x27percent_change_7d\x27" ∧
    startsWithStr (SentimentAgent.analyze none ⟨[]⟩ (mdOfQuote "BTC" scenarioQuote) false)
      "Market Sentiment: BULLISH" = false := by
  refine ⟨by decide, by decide, by decide, by decide, by decide, by decide⟩

/-- C6 amended: on the scenario snapshot extended with values for the three
quote fields the fallbacks also read (percent_change_7d,
percent_change_30d, volume_change_24h — any values), the Risk fallback
answer begins with Risk Level: HIGH (volatility 12 exceeds 10), the
Portfolio one with Recommended Action: TAKE PROFIT (change 12 exceeds 5)
and the Sentiment one with Market Sentiment: BULLISH (change positive). -/
theorem local_fallback_scenario_amended (p7 p30 vc : Rat) (sym : String) (pd : PriceData) :
    startsWithStr (RiskManagementAgent.analyze none pd
      (mdOfQuote sym (fullQuote 100 12 p7 p30 5000000 2000000000 vc)) false)
      "Risk Level: HIGH" = true ∧
    startsWithStr (PortfolioAgent.analyze none pd
      (mdOfQuote sym (fullQuote 100 12 p7 p30 5000000 2000000000 vc)) false)
      "Recommended Action: TAKE PROFIT" = true ∧
    startsWithStr (SentimentAgent.analyze none pd
      (mdOfQuote sym (fullQuote 100 12 p7 p30 5000000 2000000000 vc)) false)
      "Market Sentiment: BULLISH" = true := by
  refine ⟨?_, ?_, ?_⟩
  · show startsWithStr
      (("Risk Level: HIGH\nVolatility: 12.00%\nVolume Change: " ++ fmtFix 2 vc) ++ "%")
      "Risk Level: HIGH" = true
    apply aux_startsWithStr_append_right
    apply aux_startsWithStr_append_right
    decide
  · show startsWithStr
      "Recommended Action: TAKE PROFIT\nPrice Trend: 12.00%\nMarket Direction: Upward"
      "Recommended Action: TAKE PROFIT" = true
    decide
  · show startsWithStr
      ("Market Sentiment: BULLISH\n24h Trend: 12.00%\n7d Trend: " ++ fmtFix 2 p7)
      "Market Sentiment: BULLISH" = true
    apply aux_startsWithStr_append_right
    decide

/-- C5 counterexample: the Sentiment agent returns the raw provider
response unchanged even when the reasoning-visibility flag is false, so a
line beginning with the discourse marker Because survives, although the
claimed filter would have removed it. -/
theorem sentiment_reasoning_not_filtered_counterexample :
    SentimentAgent.analyze (some (fun _ => .ok "Because the RSI is high\nSentiment is bullish"))
      ⟨[]⟩ (mdOfQuote "BTC" (fullQuote 100 12 3 7 5000000 2000000000 2)) false
      = "Because the RSI is high\nSentiment is bullish" ∧
    stripReasoning "Because the RSI is high\nSentiment is bullish" = "Sentiment is bullish" := by
  refine ⟨by decide, by decide⟩

/-- C5 amended: only the MarketData agent filters the provider response,
removing (when show_reasoning is false) every line whose
whitespace-stripped form begins with one of the four discourse markers and
preserving the other lines verbatim, and passing the response through
unchanged when show_reasoning is true; the Sentiment, Risk and Portfolio
agents return the raw response unchanged whatever the flag says. -/
theorem reasoning_filter_amended :
    (∀ (pr pc : Rat) (o7 o30 ovc : Option Rat) (v mc : Rat) (sym nb : String)
        (pd : PriceData) (response : String),
      MarketDataAgent.analyze (.ok ()) (fun _ => .ok none) (fun _ _ => .ok ())
        (some (fun _ => .ok response)) nb pd
        (mdOfQuote sym (Quote.mk (some pr) (some pc) o7 o30 (some v) (some mc) ovc)) false
        = .ok (stripReasoning response)) ∧
    (∀ (pr pc : Rat) (o7 o30 ovc : Option Rat) (v mc : Rat) (sym nb : String)
        (pd : PriceData) (response : String),
      MarketDataAgent.analyze (.ok ()) (fun _ => .ok none) (fun _ _ => .ok ())
        (some (fun _ => .ok response)) nb pd
        (mdOfQuote sym (Quote.mk (some pr) (some pc) o7 o30 (some v) (some mc) ovc)) true
        = .ok response) ∧
    (∀ (pr pc p7 p30 v mc vc : Rat) (sym : String) (pd : PriceData)
        (response : String) (sr : Bool),
      SentimentAgent.analyze (some (fun _ => .ok response)) pd
        (mdOfQuote sym (fullQuote pr pc p7 p30 v mc vc)) sr = response) ∧
    (∀ (pr pc p7 p30 v mc vc : Rat) (sym : String) (pd : PriceData)
        (response : String) (sr : Bool),
      RiskManagementAgent.analyze (some (fun _ => .ok response)) pd
        (mdOfQuote sym (fullQuote pr pc p7 p30 v mc vc)) sr = response) ∧
    (∀ (pr pc p7 p30 v mc vc : Rat) (sym : String) (pd : PriceData)
        (response : String) (sr : Bool),
      PortfolioAgent.analyze (some (fun _ => .ok response)) pd
        (mdOfQuote sym (fullQuote pr pc p7 p30 v mc vc)) sr = response) := by
  refine ⟨fun _ _ _ _ _ _ _ _ _ _ _ => rfl, fun _ _ _ _ _ _ _ _ _ _ _ => rfl,
    fun _ _ _ _ _ _ _ _ _ _ _ => rfl, fun _ _ _ _ _ _ _ _ _ _ _ => rfl,
    fun _ _ _ _ _ _ _ _ _ _ _ => rfl⟩

/-- C7 counterexample: a failing cache read is not degraded to a miss — the
agent result becomes the boundary error string instead of the analysis the
healthy-cache run produces. -/
theorem cache_fault_not_miss_counterexample :
    MarketDataAgent.analyze (.ok ()) (fun _ => .error (.runtimeError "redis down"))
      (fun _ _ => .ok ()) none "2024-01-01-00" ⟨[]⟩
      (mdOfQuote "BTC" (fullQuote 100 12 3 7 5000000 2000000000 2)) false
      = .ok "Error analyzing market data: redis down" ∧
    MarketDataAgent.analyze (.ok ()) (fun _ => .ok none)
      (fun _ _ => .ok ()) none "2024-01-01-00" ⟨[]⟩
      (mdOfQuote "BTC" (fullQuote 100 12 3 7 5000000 2000000000 2)) false
      = .ok "=== MARKET STATISTICS ===\nCurrent Price:    $100.00\n24h Change:       12.00%\nVolume:          $5.0M\nMarket Cap:      $2.00B" ∧
    ("Error analyzing market data: redis down" : String)
      ≠ "=== MARKET STATISTICS ===\nCurrent Price:    $100.00\n24h Change:       12.00%\nVolume:          $5.0M\nMarket Cap:      $2.00B" := by
  refine ⟨by decide, ?_, by decide⟩
  have hv : (5000000 : Rat) / 1000000 = 5 := by norm_num
  have hm : (2000000000 : Rat) / 1000000000 = 2 := by norm_num
  show Except.ok ("=== MARKET STATISTICS ===\n" ++
    "Current Price:    $" ++ fmtFix 2 (100 : Rat) ++ "\n" ++
    "24h Change:       " ++ fmtFix 2 (12 : Rat) ++ "%\n" ++
    "Volume:          $" ++ fmtFix 1 ((5000000 : Rat) / 1000000) ++ "M\n" ++
    "Market Cap:      $" ++ fmtFix 2 ((2000000000 : Rat) / 1000000000) ++ "B")
    = Except.ok "=== MARKET STATISTICS ===\nCurrent Price:    $100.00\n24h Change:       12.00%\nVolume:          $5.0M\nMarket Cap:      $2.00B"
  rw [hv, hm]
  decide

/-- C7 amended: an exception in the cache read or the cache write is caught
at the agent boundary like any other exception and turned into the agent
error string — the agent neither crashes nor recomputes its normal result,
so a cache fault is the cause of an agent-level error result rather than
being treated as a miss. -/
theorem cache_fault_boundary_amended :
    (∀ (pr pc : Rat) (o7 o30 ov omc ovc : Option Rat) (e : PyError)
        (redisSet : String → String → Except PyError Unit)
        (provider : Option (String → Except PyError String))
        (nb sym : String) (pd : PriceData) (sr : Bool),
      MarketDataAgent.analyze (.ok ()) (fun _ => .error e) redisSet provider nb pd
        (mdOfQuote sym (Quote.mk (some pr) (some pc) o7 o30 ov omc ovc)) sr
        = .ok ("Error analyzing market data: " ++ e.str)) ∧
    (∀ (pr pc v mc : Rat) (o7 o30 ovc : Option Rat) (e : PyError)
        (nb sym : String) (pd : PriceData) (sr : Bool),
      MarketDataAgent.analyze (.ok ()) (fun _ => .ok none) (fun _ _ => .error e)
        none nb pd
        (mdOfQuote sym (Quote.mk (some pr) (some pc) o7 o30 (some v) (some mc) ovc)) sr
        = .ok ("Error analyzing market data: " ++ e.str)) := by
  refine ⟨fun _ _ _ _ _ _ _ _ _ _ _ _ _ _ => rfl, fun _ _ _ _ _ _ _ _ _ _ _ _ => rfl⟩

/-- C4 counterexample: MarketDataAgent awaits its Redis-client
initialization before its try block, so an exception there leaves analyze
as an uncaught exception instead of an error result. -/
theorem market_agent_init_exception_escapes :
    MarketDataAgent.analyze (.error (.runtimeError "await on Redis client failed"))
      (fun _ => .ok none) (fun _ _ => .ok ()) none "2024-01-01-00" ⟨[]⟩
      (mdOfQuote "BTC" (fullQuote 100 12 3 7 5000000 2000000000 2)) true
      = .error (.runtimeError "await on Redis client failed") ∧
    (MarketDataAgent.analyze (.error (.runtimeError "await on Redis client failed"))
      (fun _ => .ok none) (fun _ _ => .ok ()) none "2024-01-01-00" ⟨[]⟩
      (mdOfQuote "BTC" (fullQuote 100 12 3 7 5000000 2000000000 2)) true).isOk = false := by
  refine ⟨by decide, by decide⟩

/-- C4 amended: every exception raised inside an agent try body is caught
at the agent boundary and converted to the error string carrying the
exception message, and with a successful Redis initialization
MarketDataAgent.analyze always returns a result value; but an exception in
the MarketDataAgent Redis initialization step, which the source runs
before the try block, propagates out of analyze unhandled. -/
theorem agent_boundary_catch_amended :
    (∀ (redisGet : String → Except PyError (Option String))
        (redisSet : String → String → Except PyError Unit)
        (provider : Option (String → Except PyError String))
        (nb : String) (pd : PriceData) (md : MarketData) (sr : Bool) (e : PyError),
      mdTryBody redisGet redisSet provider nb md sr = .error e →
      MarketDataAgent.analyze (.ok ()) redisGet redisSet provider nb pd md sr
        = .ok ("Error analyzing market data: " ++ e.str)) ∧
    (∀ (e : PyError) (redisGet : String → Except PyError (Option String))
        (redisSet : String → String → Except PyError Unit)
        (provider : Option (String → Except PyError String))
        (nb : String) (pd : PriceData) (md : MarketData) (sr : Bool),
      MarketDataAgent.analyze (.error e) redisGet redisSet provider nb pd md sr
        = .error e) ∧
    (∀ (provider : Option (String → Except PyError String))
        (pd : PriceData) (md : MarketData) (sr : Bool) (e : PyError),
      sentimentTryBody provider md = .error e →
      SentimentAgent.analyze provider pd md sr = "Error analyzing sentiment: " ++ e.str) ∧
    (∀ (provider : Option (String → Except PyError String))
        (pd : PriceData) (md : MarketData) (sr : Bool) (e : PyError),
      riskTryBody provider md = .error e →
      RiskManagementAgent.analyze provider pd md sr = "Error analyzing risks: " ++ e.str) ∧
    (∀ (provider : Option (String → Except PyError String))
        (pd : PriceData) (md : MarketData) (sr : Bool) (e : PyError),
      portfolioTryBody provider md = .error e →
      PortfolioAgent.analyze provider pd md sr = "Error generating portfolio advice: " ++ e.str) ∧
    (∀ (redisGet : String → Except PyError (Option String))
        (redisSet : String → String → Except PyError Unit)
        (provider : Option (String → Except PyError String))
        (nb : String) (pd : PriceData) (md : MarketData) (sr : Bool),
      (MarketDataAgent.analyze (.ok ()) redisGet redisSet provider nb pd md sr).isOk = true) := by
  refine ⟨?_, ?_, ?_, ?_, ?_, ?_⟩
  · intro rg rs pv nb pd md sr e h
    simp [MarketDataAgent.analyze, h]
  · intro e rg rs pv nb pd md sr
    rfl
  · intro pv pd md sr e h
    simp [SentimentAgent.analyze, h]
  · intro pv pd md sr e h
    simp [RiskManagementAgent.analyze, h]
  · intro pv pd md sr e h
    simp [PortfolioAgent.analyze, h]
  · intro rg rs pv nb pd md sr
    show (match mdTryBody rg rs pv nb md sr with
      | .ok s => (.ok s : Except PyError String)
      | .error e => .ok ("Error analyzing market data: " ++ e.str)).isOk = true
    cases mdTryBody rg rs pv nb md sr <;> rfl

/-- Witness for C4 amended: a concrete missing-field exception inside the
Sentiment try body surfaces as the boundary error string. -/
theorem agent_boundary_catch_amended_witness :
    SentimentAgent.analyze none ⟨[]⟩
      (mdOfQuote "BTC" (Quote.mk (some 100) (some 12) none none none none none)) false
      = "Error analyzing sentiment: \x27percent_change_7d\x27" :=
  agent_boundary_catch_amended.2.2.1 none ⟨[]⟩
    (mdOfQuote "BTC" (Quote.mk (some 100) (some 12) none none none none none)) false
    (.keyError "percent_change_7d") (by decide)

/-- Backend outcome stream for C8: the first call fails with a
connection-classified error, a second call would succeed. -/
def connAttempts : Nat → Except String String :=
  fun n => if n = 0 then .error "Connection reset by peer" else .ok "Recovered analysis"

/-- C8 counterexample: the Sentiment agent provider call is made exactly
once; a classified connection error is not retried although the next
attempt would succeed — the agent reports the error immediately. -/
theorem no_retry_on_connection_counterexample :
    SentimentAgent.analyze (some (fun _ => agentSingleCall connAttempts)) ⟨[]⟩
      (mdOfQuote "BTC" (fullQuote 100 12 3 7 5000000 2000000000 2)) false
      = "Error analyzing sentiment: [Anthropic] Connection reset by peer" ∧
    connAttempts 1 = .ok "Recovered analysis" ∧
    ("Error analyzing sentiment: [Anthropic] Connection reset by peer" : String)
      ≠ "Recovered analysis" := by
  refine ⟨by decide, by decide, by decide⟩

/-- C8 amended: the retry and fallback policy lives only in the uninvoked
BaseProvider._handle_provider_error (connection errors under the retry
bound return the retry call, quota errors return the fallback call, all
other kinds re-raise); the call path agents actually run consumes exactly
one backend outcome and surfaces every classified error kind — connection
and quota included — immediately as the agent error result. -/
theorem provider_single_call_amended :
    (∀ (a1 a2 : Nat → Except String String), a1 0 = a2 0 →
      agentSingleCall a1 = agentSingleCall a2) ∧
    (∀ (attempts : Nat → Except String String) (etext : String)
        (pr pc p7 p30 v mc vc : Rat) (sym : String) (pd : PriceData) (sr : Bool),
      attempts 0 = .error etext →
      SentimentAgent.analyze (some (fun _ => agentSingleCall attempts)) pd
        (mdOfQuote sym (fullQuote pr pc p7 p30 v mc vc)) sr
        = "Error analyzing sentiment: " ++ (classifyAnthropic etext).str) ∧
    (∀ (m : String) (rc : Nat) (r f : Except PyError String), rc < 3 →
      BaseProvider.handle_provider_error (.providerConn m) rc r f = r) ∧
    (∀ (m : String) (rc : Nat) (r f : Except PyError String),
      BaseProvider.handle_provider_error (.providerQuota m) rc r f = f) ∧
    (∀ (e : PyError) (rc : Nat) (r f : Except PyError String),
      (∀ m, e ≠ .providerConn m) → (∀ m, e ≠ .providerQuota m) →
      BaseProvider.handle_provider_error e rc r f = .error e) := by
  refine ⟨?_, ?_, ?_, ?_, ?_⟩
  · intro a1 a2 h
    unfold agentSingleCall
    rw [h]
  · intro attempts etext pr pc p7 p30 v mc vc sym pd sr h
    simp [SentimentAgent.analyze, sentimentTryBody, agentSingleCall,
      AnthropicProvider.create_message, h, getQ, exceptOfOption, mdOfQuote, fullQuote,
      bind, Except.bind]
  · intro m rc r f h
    simp [BaseProvider.handle_provider_error, h]
  · intro m rc r f
    rfl
  · intro e rc r f h1 h2
    cases e with
    | providerConn m => exact absurd rfl (h1 m)
    | providerQuota m => exact absurd rfl (h2 m)
    | keyError k => rfl
    | indexError => rfl
    | stopIteration => rfl
    | zeroDivisionError => rfl
    | valueError m => rfl
    | typeError m => rfl
    | providerAuth m => rfl
    | providerResponse m => rfl
    | modelProviderErr m => rfl
    | runtimeError m => rfl

/-- Witness for C8 amended: the single-call error surfacing applied to the
concrete connection-failure stream. -/
theorem provider_single_call_amended_witness :
    SentimentAgent.analyze (some (fun _ => agentSingleCall connAttempts)) ⟨[]⟩
      (mdOfQuote "ETH" (fullQuote 1 2 3 4 5 6 7)) true
      = "Error analyzing sentiment: " ++ (classifyAnthropic "Connection reset by peer").str :=
  provider_single_call_amended.2.1 connAttempts "Connection reset by peer"
    1 2 3 4 5 6 7 "ETH" ⟨[]⟩ true rfl

/-- Helper: dictionary insertion affects the ordered key list through
insertKey. -/
theorem aux_assocSet_keys (l : List (String × String)) (k v : String) :
    (assocSet l k v).map Prod.fst = insertKey (l.map Prod.fst) k := by
  induction l with
  | nil => rfl
  | cons hd tl ih =>
    by_cases h : hd.1 = k
    · simp [assocSet, insertKey, h]
    · simp [assocSet, insertKey, h, ih]

/-- Helper: inserting a fresh key appends it. -/
theorem aux_insertKey_not_mem (acc : List String) (x : String) (hx : x ∉ acc) :
    insertKey acc x = acc ++ [x] := by
  induction acc with
  | nil => rfl
  | cons a rest ih =>
    have hax : ¬ a = x := fun hc => hx (hc ▸ List.mem_cons_self a rest)
    have hrest : x ∉ rest := fun hc => hx (List.mem_cons_of_mem a hc)
    simp [insertKey, hax, ih hrest]

/-- Helper: folding dict insertions of pairwise-distinct fresh keys appends
them in order. -/
theorem aux_foldl_insertKey (l : List String) :
    ∀ acc : List String, l.Nodup → (∀ x ∈ l, x ∉ acc) →
      l.foldl insertKey acc = acc ++ l := by
  induction l with
  | nil => intro acc _ _; simp
  | cons x xs ih =>
    intro acc hnd hdisj
    have hx : x ∉ acc := hdisj x (List.mem_cons_self x xs)
    rw [List.foldl_cons, aux_insertKey_not_mem acc x hx,
      ih (acc ++ [x]) (List.nodup_cons.mp hnd).2 ?_]
    · simp
    · intro y hy
      rw [List.mem_append]
      rintro (hya | hyx)
      · exact hdisj y (List.mem_cons_of_mem x hy) hya
      · have : y = x := by simpa using hyx
        exact (List.nodup_cons.mp hnd).1 (this ▸ hy)

/-- Helper: one provider-loop step affects the provider_configs key list
through insertKey of the processed provider. -/
theorem aux_resolveStep_keys (env : OrchestrationEnv)
    (acc : List (String × String) × List (String × String)) (p : String)
    (acc2 : List (String × String) × List (String × String))
    (h : resolveStep env acc p = .ok acc2) :
    acc2.1.map Prod.fst = insertKey (acc.1.map Prod.fst) p := by
  simp only [resolveStep, bind, Except.bind, exceptOfOption] at h
  repeat' split at h
  all_goals first
    | (simp at h
       done)
    | (have hpair := Except.ok.inj h
       rw [← hpair]
       simp [aux_assocSet_keys])

/-- Helper: the provider_configs key list produced by the provider loop is
the fold of dict insertions over the processed providers. -/
theorem aux_resolveAux_keys (env : OrchestrationEnv) (ps : List String) :
    ∀ (acc res : List (String × String) × List (String × String)),
      resolveProvidersAux env ps acc = .ok res →
      res.1.map Prod.fst = ps.foldl insertKey (acc.1.map Prod.fst) := by
  induction ps with
  | nil =>
    intro acc res h
    simp only [resolveProvidersAux] at h
    cases h
    simp
  | cons p rest ih =>
    intro acc res h
    simp only [resolveProvidersAux, bind, Except.bind] at h
    cases hs : resolveStep env acc p with
    | error e => rw [hs] at h; exact absurd h (by simp)
    | ok acc2 =>
      rw [hs] at h
      dsimp only at h
      rw [List.foldl_cons, ← aux_resolveStep_keys env acc p acc2 hs]
      exact ih acc2 res h

/-- C3 counterexample: for the valid request with provider list
[anthropic, openai, anthropic] (N = 5 agents, M = 3 ≤ N) the fourth agent
(index 3, risk) is assigned openai, while providers at index 3 mod 3 is
anthropic: the assignment round-robins over the deduplicated key list of
the provider_configs dict, not over the request list. -/
theorem round_robin_dedup_counterexample :
    (do
      let r ← resolveProviders demoEnv ["anthropic", "openai", "anthropic"]
      buildAgents r.1 r.2 none : Except PyError (List (String × AgentInstance)))
      = .ok [("market_data_agent", ⟨"claude-3", "key-a", "anthropic"⟩),
             ("sentiment_agent", ⟨"gpt-4", "key-o", "openai"⟩),
             ("technical_agent", ⟨"claude-3", "key-a", "anthropic"⟩),
             ("risk_management_agent", ⟨"gpt-4", "key-o", "openai"⟩),
             ("portfolio_agent", ⟨"claude-3", "key-a", "anthropic"⟩)] ∧
    (["anthropic", "openai", "anthropic"] : List String).get?
        (3 % (["anthropic", "openai", "anthropic"] : List String).length)
      = some "anthropic" ∧
    ("openai" : String) ≠ "anthropic" := by
  refine ⟨by decide, by decide, by decide⟩

/-- C3 amended: the provider assignment round-robins over the ordered
deduplicated key list of the resolved provider dictionary: the agent built
at loop position i carries provider keyList at i mod its length, the
single requested agent carries the first key, the key list is the ordered
first-occurrence deduplication of the request provider list, and for a
duplicate-free request list the two coincide, giving the claimed
providers at i mod M. -/
theorem round_robin_assignment_amended :
    (∀ (cfgs keys : List (String × String)) (i : Nat) (inst : AgentInstance),
      mkAgent cfgs keys i = .ok inst →
      some inst.provider_name
        = (cfgs.map Prod.fst).get? (i % (cfgs.map Prod.fst).length)) ∧
    (∀ (cfgs keys : List (String × String)) (aty name : String) (inst : AgentInstance),
      mkSingleAgent cfgs keys aty = .ok [(name, inst)] →
      some inst.provider_name = (cfgs.map Prod.fst).head?) ∧
    (∀ (env : OrchestrationEnv) (providers : List String)
        (resolved : List (String × String) × List (String × String)),
      resolveProviders env providers = .ok resolved →
      resolved.1.map Prod.fst = dictKeys providers) ∧
    (∀ providers : List String, providers.Nodup → dictKeys providers = providers) := by
  refine ⟨?_, ?_, ?_, ?_⟩
  · intro cfgs keys i inst h
    simp only [mkAgent, bind, Except.bind, exceptOfOption] at h
    repeat' split at h
    all_goals simp_all
    all_goals cases ‹∃ x, _› with
    | intro w hw => simp_all; rw [← h]
  · intro cfgs keys aty name inst h
    simp only [mkSingleAgent, bind, Except.bind, exceptOfOption] at h
    repeat' split at h
    all_goals simp_all
    all_goals cases ‹∃ x, _› with
    | intro w hw => simp_all; rw [← h.2]
  · intro env providers resolved h
    have := aux_resolveAux_keys env providers ([], []) resolved h
    exact this
  · intro providers hnd
    have := aux_foldl_insertKey providers [] hnd (fun x _ => List.not_mem_nil x)
    simpa [dictKeys] using this

/-- Witness for C3 amended: the round-robin conclusion applied to the
concrete two-provider configuration at loop position 3. -/
theorem round_robin_assignment_amended_witness :
    some ("openai" : String)
      = ((([("anthropic", "claude-3"), ("openai", "gpt-4")] : List (String × String)).map
          Prod.fst).get?
        (3 % (([("anthropic", "claude-3"), ("openai", "gpt-4")] : List (String × String)).map
          Prod.fst).length)) :=
  round_robin_assignment_amended.1 [("anthropic", "claude-3"), ("openai", "gpt-4")]
    [("anthropic", "key-a"), ("openai", "key-o")] 3 ⟨"gpt-4", "key-o", "openai"⟩ (by decide)
